import Mathlib

/-!
Verification of the sliding-window rate limiter in src/api/rate_limiter.py.

The embedding models the module faithfully:
  * Timestamps are rationals (the Python code uses time.time() floats; the
    algorithm only subtracts and compares them, so exact rationals embed every
    run the claims mention).
  * Python exceptions become an explicit error type: the RuntimeError raised
    after max_retries (the exhaustion condition), and the IndexError that
    self.second_queue.queue[0] raises on an empty deque.
  * time.sleep is modelled by a Boolean flag: with advance = true a sleep of
    d seconds moves the clock forward by exactly d (idealised real execution in
    which nothing else takes time); with advance = false sleeps are stubbed to
    zero length and the clock is frozen (the stubbed-sleep test scenario).
-/

/-
Batteries marks Rat.add and Rat.sub irreducible; the concrete evaluations
below need them unfolded so that decide and rfl can reduce closed terms.
-/
unseal Rat.sub Rat.add

/-- Errors that can escape the limiter: the RuntimeError raised at the end of
RateLimiter.wait (exhaustion), the IndexError raised by
self.second_queue.queue[0] on an empty deque inside _wait_if_needed, and a
configuration error (present in src/exceptions/errors.py; listed here so that
the absence of a construction-time raise is expressible). -/
inductive PyError where
  | indexError
  | exhausted
  | configurationError
deriving DecidableEq

/-- The state of one RateLimiter object: the three constructor parameters and
the two timestamp queues (FIFO order, oldest first). -/
structure RateLimiter where
  calls_per_second : Int
  calls_per_minute : Int
  max_retries : Nat
  second_queue : List Rat
  minute_queue : List Rat
deriving DecidableEq

/-- The body of RateLimiter.__init__ (lines 16-39): store the three parameters
and create two empty queues. -/
def RateLimiter.construct (calls_per_second calls_per_minute : Int)
    (max_retries : Nat) : RateLimiter :=
  { calls_per_second := calls_per_second
    calls_per_minute := calls_per_minute
    max_retries := max_retries
    second_queue := []
    minute_queue := [] }

/-- Python construction RateLimiter(...): __init__ contains no validation and
no raise statement, so it always returns normally.  The Except wrapper makes
the absence of any construction-time error path explicit. -/
def RateLimiter.init (calls_per_second calls_per_minute : Int)
    (max_retries : Nat) : Except PyError RateLimiter :=
  .ok (RateLimiter.construct calls_per_second calls_per_minute max_retries)

/-- RateLimiter._clean_queue (lines 41-65): drain the queue, keep exactly the
timestamps with current_time - timestamp <= interval, refill in order.  The
caller receives the retained count as the length of the result. -/
def clean_queue (current_time : Rat) (q : List Rat) (interval : Rat) :
    List Rat :=
  q.filter (fun timestamp => current_time - timestamp ≤ interval)

/-- The Python builtin max on two numbers: the second argument when it is
strictly greater, else the first. -/
def pyMax (a b : Rat) : Rat := if a < b then b else a

/-- RateLimiter._wait_if_needed (lines 67-80).  When current_count >= limit it
reads self.second_queue.queue[0] -- always the SECOND queue, whichever window
is being checked -- and sleeps max(0, interval - (now - second_queue[0])).
On an empty second queue the indexing raises IndexError.  Returns the time
slept (0 when no sleep happens). -/
def wait_if_needed (now : Rat) (second_queue : List Rat)
    (current_count limit : Int) (interval : Rat) : Except PyError Rat :=
  if current_count ≥ limit then
    match second_queue with
    | [] => .error .indexError
    | oldest :: _ => .ok (pyMax 0 (interval - (now - oldest)))
  else
    .ok 0

/-- Outcome of one iteration of the while loop in RateLimiter.wait, carrying
the clock and the limiter state as left by that iteration. -/
inductive AttemptResult where
  | admitted (now : Rat) (l : RateLimiter)
  | retry (now : Rat) (l : RateLimiter)
  | failed (e : PyError) (now : Rat) (l : RateLimiter)
deriving DecidableEq

/-- One iteration of the while loop in RateLimiter.wait (lines 92-110):
clean the second queue at the current clock, run the guarded short-window
wait, clean the minute queue at the (possibly advanced) clock, run the guarded
long-window wait (which reads the SECOND queue front, as the source does),
then compare the two counts -- as computed BEFORE the waits -- against the
limits; on success append the current time to both queues, otherwise perform
the fallback time.sleep(1) of line 110 and report a retry. -/
def waitAttempt (advance : Bool) (now : Rat) (l : RateLimiter) :
    AttemptResult :=
  let sq1 := clean_queue now l.second_queue 1
  let second_count : Int := sq1.length
  let shortRes : Except PyError Rat :=
    if second_count ≥ l.calls_per_second then
      wait_if_needed now sq1 second_count l.calls_per_second 1
    else .ok 0
  match shortRes with
  | .error e => .failed e now { l with second_queue := sq1 }
  | .ok sleep1 =>
    let t1 := if advance then now + sleep1 else now
    let mq1 := clean_queue t1 l.minute_queue 60
    let minute_count : Int := mq1.length
    let longRes : Except PyError Rat :=
      if minute_count ≥ l.calls_per_minute then
        wait_if_needed t1 sq1 minute_count l.calls_per_minute 60
      else .ok 0
    match longRes with
    | .error e => .failed e t1 { l with second_queue := sq1, minute_queue := mq1 }
    | .ok sleep2 =>
      let t2 := if advance then t1 + sleep2 else t1
      if second_count < l.calls_per_second ∧ minute_count < l.calls_per_minute then
        .admitted t2
          { l with second_queue := sq1 ++ [t2], minute_queue := mq1 ++ [t2] }
      else
        .retry (if advance then t2 + 1 else t2)
          { l with second_queue := sq1, minute_queue := mq1 }

/-- Result of a whole RateLimiter.wait call: success or an escaped exception,
with the final clock and limiter state. -/
inductive WaitOutcome where
  | ok (now : Rat) (l : RateLimiter)
  | err (e : PyError) (now : Rat) (l : RateLimiter)
deriving DecidableEq

/-- The while loop of RateLimiter.wait, with the remaining number of loop
iterations (max_retries - retries) as fuel; when the fuel is exhausted the
RuntimeError of line 112 is raised. -/
def waitAux (advance : Bool) : Nat → Rat → RateLimiter → WaitOutcome
  | 0, now, l => .err .exhausted now l
  | fuel + 1, now, l =>
    match waitAttempt advance now l with
    | .admitted t l1 => .ok t l1
    | .failed e t l1 => .err e t l1
    | .retry t l1 => waitAux advance fuel t l1

/-- RateLimiter.wait (lines 82-112): run up to max_retries loop iterations. -/
def RateLimiter.wait (advance : Bool) (now : Rat) (l : RateLimiter) :
    WaitOutcome :=
  waitAux advance l.max_retries now l

/-- Iterated retry outcomes: some (t, l1) exactly when the given number of
consecutive loop iterations each end in the retry branch, arriving at clock t
and limiter state l1. -/
def retryIter (advance : Bool) : Nat → Rat → RateLimiter → Option (Rat × RateLimiter)
  | 0, now, l => some (now, l)
  | fuel + 1, now, l =>
    match waitAttempt advance now l with
    | .retry t l1 => retryIter advance fuel t l1
    | _ => none

/-- Python truthiness fallback x or d for an Optional[int] argument:
None and 0 are falsy and yield the default. -/
def pyOrInt (v : Option Int) (d : Int) : Int :=
  match v with
  | none => d
  | some x => if x = 0 then d else x

/-- The state of a RateLimitManager: its _limiters dict, modelled as an
association list with unique keys (entries are only ever inserted for absent
keys). -/
structure RateLimitManager where
  limiters : List (String × RateLimiter)
deriving DecidableEq

/-- Dict lookup self._limiters[endpoint] (None when absent). -/
def lookupLimiter (m : RateLimitManager) (endpoint : String) :
    Option RateLimiter :=
  (m.limiters.find? (fun p => p.1 == endpoint)).map Prod.snd

/-- RateLimitManager.get_limiter (lines 122-145): on a hit return the cached
limiter and leave the map unchanged; on a miss construct
RateLimiter(calls_per_second=cps or 10, calls_per_minute=cpm or 600) -- the
max_retries argument is not passed, so the default 3 applies -- insert it and
return it. -/
def RateLimitManager.get_limiter (m : RateLimitManager) (endpoint : String)
    (calls_per_second calls_per_minute : Option Int) :
    RateLimiter × RateLimitManager :=
  match lookupLimiter m endpoint with
  | some l => (l, m)
  | none =>
    let l := RateLimiter.construct (pyOrInt calls_per_second 10)
      (pyOrInt calls_per_minute 600) 3
    (l, ⟨m.limiters ++ [(endpoint, l)]⟩)

/-- Writing back the mutated state of the limiter object stored under a key
(Python mutates the shared object in place; the embedding updates the entry). -/
def updateLimiter (m : RateLimitManager) (endpoint : String)
    (l : RateLimiter) : RateLimitManager :=
  ⟨m.limiters.map (fun p => if p.1 == endpoint then (p.1, l) else p)⟩

theorem clean_queue_sublist (current_time : Rat) (q : List Rat) (interval : Rat) :
    (clean_queue current_time q interval).Sublist q :=
  List.filter_sublist q

set_option maxHeartbeats 1000000 in
theorem waitAttempt_admitted_spec {advance : Bool} {now : Rat} {l : RateLimiter}
    {t : Rat} {l1 : RateLimiter}
    (h : waitAttempt advance now l = .admitted t l1) :
    l1.calls_per_second = l.calls_per_second ∧
    l1.calls_per_minute = l.calls_per_minute ∧
    l1.max_retries = l.max_retries ∧
    ∃ p q, l1.second_queue = p ++ [t] ∧ l1.minute_queue = q ++ [t] ∧
      p.Sublist l.second_queue ∧ q.Sublist l.minute_queue ∧
      ((p.length : Int) < l.calls_per_second) ∧
      ((q.length : Int) < l.calls_per_minute) := by
  unfold waitAttempt wait_if_needed at h
  dsimp only at h
  repeat' split at h
  all_goals first
    | simp only [reduceCtorEq] at h
    | (rename_i hcond
       injection h with h1 h2
       subst h1; subst h2
       exact ⟨rfl, rfl, rfl, _, _, rfl, rfl, clean_queue_sublist _ _ _,
         clean_queue_sublist _ _ _, hcond.1, hcond.2⟩)

theorem wait_if_needed_error {now : Rat} {sq : List Rat} {cc lim : Int}
    {iv : Rat} {e : PyError} (h : wait_if_needed now sq cc lim iv = .error e) :
    e = .indexError := by
  unfold wait_if_needed at h
  repeat' split at h
  all_goals simp_all

set_option maxHeartbeats 1000000 in
theorem waitAttempt_retry_spec {advance : Bool} {now : Rat} {l : RateLimiter}
    {t : Rat} {l1 : RateLimiter}
    (h : waitAttempt advance now l = .retry t l1) :
    l1.calls_per_second = l.calls_per_second ∧
    l1.calls_per_minute = l.calls_per_minute ∧
    l1.max_retries = l.max_retries ∧
    l1.second_queue.Sublist l.second_queue ∧
    l1.minute_queue.Sublist l.minute_queue := by
  unfold waitAttempt at h
  dsimp only at h
  repeat' split at h
  all_goals first
    | simp only [reduceCtorEq] at h
    | (injection h with h1 h2
       subst h1; subst h2
       exact ⟨rfl, rfl, rfl, clean_queue_sublist _ _ _, clean_queue_sublist _ _ _⟩)

set_option maxHeartbeats 1000000 in
theorem waitAttempt_failed_spec {advance : Bool} {now : Rat} {l : RateLimiter}
    {e : PyError} {t : Rat} {l1 : RateLimiter}
    (h : waitAttempt advance now l = .failed e t l1) :
    e = .indexError ∧
    l1.second_queue.Sublist l.second_queue ∧
    l1.minute_queue.Sublist l.minute_queue := by
  unfold waitAttempt at h
  dsimp only at h
  cases advance <;> simp only [Bool.false_eq_true, reduceIte] at h <;>
  repeat' split at h
  all_goals first
    | simp only [reduceCtorEq] at h
    | (rename_i ev heq
       split at heq <;>
         first
           | simp only [reduceCtorEq] at heq
           | (have he := wait_if_needed_error heq
              subst he
              injection h with h1 h2 h3
              subst h1; subst h2; subst h3
              first
                | exact ⟨rfl, clean_queue_sublist _ _ _, clean_queue_sublist _ _ _⟩
                | exact ⟨rfl, clean_queue_sublist _ _ _, List.Sublist.refl _⟩))

set_option maxHeartbeats 1000000 in
theorem waitAttempt_fastpath (advance : Bool) (now : Rat) (l : RateLimiter)
    (h1 : ((clean_queue now l.second_queue 1).length : Int) < l.calls_per_second)
    (h2 : ((clean_queue now l.minute_queue 60).length : Int) < l.calls_per_minute) :
    waitAttempt advance now l = .admitted now
      { l with second_queue := clean_queue now l.second_queue 1 ++ [now],
               minute_queue := clean_queue now l.minute_queue 60 ++ [now] } := by
  unfold waitAttempt
  cases advance <;>
    (try simp only [Bool.false_eq_true, reduceIte]) <;>
    rw [if_neg (not_le.mpr h1)] <;>
    (try dsimp only) <;>
    (try simp only [add_zero]) <;>
    rw [if_neg (not_le.mpr h2)] <;>
    (try dsimp only) <;>
    (try simp only [add_zero]) <;>
    rw [if_pos ⟨h1, h2⟩]

set_option maxHeartbeats 1000000 in
theorem waitAttempt_short_block {advance : Bool} {now : Rat} {l : RateLimiter}
    {t : Rat} {l1 : RateLimiter}
    (h1 : ¬ ((clean_queue now l.second_queue 1).length : Int) < l.calls_per_second)
    (h : waitAttempt advance now l = .admitted t l1) : False := by
  unfold waitAttempt at h
  dsimp only at h
  repeat' split at h
  all_goals first
    | simp only [reduceCtorEq] at h
    | exact absurd (And.left (by assumption : _ ∧ _)) h1

set_option maxHeartbeats 1000000 in
theorem waitAttempt_minute_block {advance : Bool} {now : Rat} {l : RateLimiter}
    {t : Rat} {l1 : RateLimiter}
    (hs : ((clean_queue now l.second_queue 1).length : Int) < l.calls_per_second)
    (hm : ¬ ((clean_queue now l.minute_queue 60).length : Int) < l.calls_per_minute)
    (h : waitAttempt advance now l = .admitted t l1) : False := by
  unfold waitAttempt at h
  cases advance <;> simp only [Bool.false_eq_true, reduceIte] at h <;>
    rw [if_neg (not_le.mpr hs)] at h <;>
    (try dsimp only at h) <;>
    (try simp only [add_zero] at h) <;>
    rw [if_pos (not_lt.mp hm)] at h <;>
    repeat' split at h
  all_goals first
    | simp only [reduceCtorEq] at h
    | exact absurd (And.right (by assumption : _ ∧ _)) hm

theorem waitAttempt_admitted_now {advance : Bool} {now : Rat} {l : RateLimiter}
    {t : Rat} {l1 : RateLimiter}
    (h : waitAttempt advance now l = .admitted t l1) :
    t = now ∧
    ((clean_queue now l.second_queue 1).length : Int) < l.calls_per_second ∧
    ((clean_queue now l.minute_queue 60).length : Int) < l.calls_per_minute ∧
    l1 = { l with second_queue := clean_queue now l.second_queue 1 ++ [now],
                  minute_queue := clean_queue now l.minute_queue 60 ++ [now] } := by
  by_cases h1 : ((clean_queue now l.second_queue 1).length : Int) < l.calls_per_second
  · by_cases h2 : ((clean_queue now l.minute_queue 60).length : Int) < l.calls_per_minute
    · rw [waitAttempt_fastpath advance now l h1 h2] at h
      injection h with ha hb
      exact ⟨ha.symm, h1, h2, hb.symm⟩
    · exact absurd h (fun hh => waitAttempt_minute_block h1 h2 hh)
  · exact absurd h (fun hh => waitAttempt_short_block h1 hh)

theorem waitAux_ok_spec {advance : Bool} {fuel : Nat} {now : Rat}
    {l : RateLimiter} {t : Rat} {l1 : RateLimiter}
    (h : waitAux advance fuel now l = .ok t l1) :
    l1.calls_per_second = l.calls_per_second ∧
    l1.calls_per_minute = l.calls_per_minute ∧
    l1.max_retries = l.max_retries ∧
    ∃ p q, l1.second_queue = p ++ [t] ∧ l1.minute_queue = q ++ [t] ∧
      p.Sublist l.second_queue ∧ q.Sublist l.minute_queue ∧
      ((p.length : Int) < l.calls_per_second) ∧
      ((q.length : Int) < l.calls_per_minute) := by
  induction fuel generalizing now l with
  | zero => exact absurd h (by simp [waitAux])
  | succ n ih =>
    unfold waitAux at h
    cases ha : waitAttempt advance now l with
    | admitted t2 l2 =>
      rw [ha] at h
      injection h with h1 h2
      subst h1; subst h2
      exact waitAttempt_admitted_spec ha
    | retry t2 l2 =>
      rw [ha] at h
      obtain ⟨e1, e2, e3, s1, s2⟩ := waitAttempt_retry_spec ha
      obtain ⟨f1, f2, f3, p, q, hp, hq, hps, hqs, hb1, hb2⟩ := ih h
      refine ⟨f1.trans e1, f2.trans e2, f3.trans e3, p, q, hp, hq,
        hps.trans s1, hqs.trans s2, ?_, ?_⟩
      · rw [← e1]; exact hb1
      · rw [← e2]; exact hb2
    | failed e t2 l2 =>
      rw [ha] at h
      exact absurd h (by simp)

theorem waitAux_err_spec {advance : Bool} {fuel : Nat} {now : Rat}
    {l : RateLimiter} {e : PyError} {t : Rat} {l1 : RateLimiter}
    (h : waitAux advance fuel now l = .err e t l1) :
    l1.second_queue.Sublist l.second_queue ∧
    l1.minute_queue.Sublist l.minute_queue := by
  induction fuel generalizing now l with
  | zero =>
    simp only [waitAux, WaitOutcome.err.injEq] at h
    obtain ⟨-, -, rfl⟩ := h
    exact ⟨List.Sublist.refl _, List.Sublist.refl _⟩
  | succ n ih =>
    unfold waitAux at h
    cases ha : waitAttempt advance now l with
    | admitted t2 l2 =>
      rw [ha] at h
      exact absurd h (by simp)
    | retry t2 l2 =>
      rw [ha] at h
      obtain ⟨-, -, -, s1, s2⟩ := waitAttempt_retry_spec ha
      obtain ⟨u1, u2⟩ := ih h
      exact ⟨u1.trans s1, u2.trans s2⟩
    | failed e2 t2 l2 =>
      rw [ha] at h
      simp only [WaitOutcome.err.injEq] at h
      obtain ⟨-, -, rfl⟩ := h
      exact ⟨(waitAttempt_failed_spec ha).2.1, (waitAttempt_failed_spec ha).2.2⟩

theorem waitAux_exhausted_iff {advance : Bool} {fuel : Nat} {now : Rat}
    {l : RateLimiter} {t : Rat} {l1 : RateLimiter} :
    waitAux advance fuel now l = .err .exhausted t l1 ↔
    retryIter advance fuel now l = some (t, l1) := by
  induction fuel generalizing now l with
  | zero =>
    simp [waitAux, retryIter, eq_comm, and_comm]
  | succ n ih =>
    unfold waitAux retryIter
    cases ha : waitAttempt advance now l with
    | admitted t2 l2 => simp
    | retry t2 l2 => exact ih
    | failed e2 t2 l2 =>
      have he := (waitAttempt_failed_spec ha).1
      subst he
      simp

theorem find_first_append_none {α : Type} (p : α → Bool) {l1 : List α}
    (l2 : List α) (h : l1.find? p = none) :
    (l1 ++ l2).find? p = l2.find? p := by
  induction l1 with
  | nil => rfl
  | cons a as ih =>
    cases hp : p a with
    | true => simp [List.find?_cons, hp] at h
    | false =>
      simp only [List.find?_cons, hp] at h
      simp only [List.cons_append, List.find?_cons, hp]
      exact ih h

theorem find_first_append_some {α : Type} (p : α → Bool) {l1 : List α}
    (l2 : List α) {x : α} (h : l1.find? p = some x) :
    (l1 ++ l2).find? p = some x := by
  induction l1 with
  | nil => exact absurd h (by simp)
  | cons a as ih =>
    cases hp : p a with
    | true =>
      simp only [List.find?_cons, hp] at h
      simp only [List.cons_append, List.find?_cons, hp]
      exact h
    | false =>
      simp only [List.find?_cons, hp] at h
      simp only [List.cons_append, List.find?_cons, hp]
      exact ih h

theorem lookup_update_ne (m : RateLimitManager) (endpoint e2 : String)
    (lnew : RateLimiter) (h : endpoint ≠ e2) :
    lookupLimiter (updateLimiter m endpoint lnew) e2 = lookupLimiter m e2 := by
  unfold lookupLimiter updateLimiter
  obtain ⟨lims⟩ := m
  dsimp only
  induction lims with
  | nil => rfl
  | cons a as ih =>
    by_cases hk : a.1 = endpoint
    · have h2 : (a.1 == e2) = false := beq_eq_false_iff_ne.mpr (hk ▸ h)
      have h3 : (a.1 == endpoint) = true := beq_iff_eq.mpr hk
      simp only [List.map_cons, List.find?_cons, h3, reduceIte, h2]
      exact ih
    · have h3 : (a.1 == endpoint) = false := beq_eq_false_iff_ne.mpr hk
      simp only [List.map_cons, List.find?_cons, h3, Bool.false_eq_true, reduceIte]
      cases hp : (a.1 == e2) with
      | true => simp only [hp]
      | false => simp only [hp]; exact ih

theorem lookup_none_find {m : RateLimitManager} {e : String}
    (h : lookupLimiter m e = none) :
    m.limiters.find? (fun p => p.1 == e) = none := by
  unfold lookupLimiter at h
  exact Option.map_eq_none'.mp h

theorem lookup_after_insert (m : RateLimitManager) (e : String)
    (lnew : RateLimiter) (h : lookupLimiter m e = none) :
    lookupLimiter ⟨m.limiters ++ [(e, lnew)]⟩ e = some lnew := by
  unfold lookupLimiter
  rw [find_first_append_none _ _ (lookup_none_find h)]
  simp [List.find?_cons]

theorem lookup_after_insert_ne (m : RateLimitManager) (e e2 : String)
    (lnew : RateLimiter) (h2 : e ≠ e2) :
    lookupLimiter ⟨m.limiters ++ [(e, lnew)]⟩ e2 = lookupLimiter m e2 := by
  unfold lookupLimiter
  cases hf : m.limiters.find? (fun p => p.1 == e2) with
  | some x => rw [find_first_append_some _ _ hf]
  | none =>
    have hall : (m.limiters ++ [(e, lnew)]).find? (fun p => p.1 == e2) = none := by
      rw [find_first_append_none _ _ hf]
      simp [List.find?_cons, beq_eq_false_iff_ne.mpr h2]
    rw [hall]

/-- C8: at most one limiter per endpoint key: a cache hit returns the stored
limiter and leaves the registry unchanged with the overrides ignored; a miss
appends exactly one entry, which every later call for the same key then
returns identically; and creating or mutating the limiter of one key never
touches the entry of a different key. -/
theorem c8_registry_singleton_per_key (m : RateLimitManager)
    (endpoint e2 : String) (o1 o2 o3 o4 : Option Int) :
    (∀ l, lookupLimiter m endpoint = some l →
      m.get_limiter endpoint o1 o2 = (l, m)) ∧
    (lookupLimiter m endpoint = none →
      ∀ l m1, m.get_limiter endpoint o1 o2 = (l, m1) →
        m1.limiters = m.limiters ++ [(endpoint, l)] ∧
        lookupLimiter m1 endpoint = some l ∧
        m1.get_limiter endpoint o3 o4 = (l, m1)) ∧
    (endpoint ≠ e2 →
      lookupLimiter (m.get_limiter endpoint o1 o2).2 e2 = lookupLimiter m e2) ∧
    (∀ lnew, endpoint ≠ e2 →
      lookupLimiter (updateLimiter m endpoint lnew) e2 = lookupLimiter m e2) := by
  refine ⟨?_, ?_, ?_, ?_⟩
  · intro l hl
    unfold RateLimitManager.get_limiter
    rw [hl]
  · intro hn l m1 hg
    unfold RateLimitManager.get_limiter at hg
    rw [hn] at hg
    dsimp only at hg
    injection hg with hg1 hg2
    subst hg1; subst hg2
    refine ⟨rfl, lookup_after_insert m endpoint _ hn, ?_⟩
    unfold RateLimitManager.get_limiter
    rw [lookup_after_insert m endpoint _ hn]
  · intro hne
    unfold RateLimitManager.get_limiter
    cases hc : lookupLimiter m endpoint with
    | some x => rfl
    | none => exact lookup_after_insert_ne m endpoint e2 _ hne
  · intro lnew hne
    exact lookup_update_ne m endpoint e2 lnew hne

/-- C9 counterexample: an override that is present but zero is NOT used; the
Python expression calls_per_second or 10 treats 0 as falsy, so the created
limiter gets the default 10 instead of the passed override 0. -/
theorem c9_counterexample_zero_override :
    (RateLimitManager.get_limiter ⟨[]⟩ "ep" (some 0) none).1.calls_per_second
      = 10 ∧ (10 : Int) ≠ 0 := by
  refine ⟨rfl, by decide⟩

/-- C9 amended: on a cache miss the new limiter uses an override exactly when
it is present AND nonzero; an absent override or a zero override falls back to
the defaults 10 and 600 (Python or treats 0 as falsy). -/
theorem c9_amended_override_semantics (m : RateLimitManager) (e : String)
    (o1 o2 : Option Int) (h : lookupLimiter m e = none) :
    (o1 = none → (m.get_limiter e o1 o2).1.calls_per_second = 10) ∧
    (o1 = some 0 → (m.get_limiter e o1 o2).1.calls_per_second = 10) ∧
    (∀ v, o1 = some v → v ≠ 0 → (m.get_limiter e o1 o2).1.calls_per_second = v) ∧
    (o2 = none → (m.get_limiter e o1 o2).1.calls_per_minute = 600) ∧
    (o2 = some 0 → (m.get_limiter e o1 o2).1.calls_per_minute = 600) ∧
    (∀ v, o2 = some v → v ≠ 0 → (m.get_limiter e o1 o2).1.calls_per_minute = v) := by
  unfold RateLimitManager.get_limiter
  rw [h]
  refine ⟨?_, ?_, ?_, ?_, ?_, ?_⟩
  · rintro rfl; rfl
  · rintro rfl; rfl
  · rintro v rfl hv
    simp [RateLimiter.construct, pyOrInt, hv]
  · rintro rfl; rfl
  · rintro rfl; rfl
  · rintro v rfl hv
    simp [RateLimiter.construct, pyOrInt, hv]

/-- C10: a limiter created through the registry always has max_retries 3 and
is fully determined by the two quota arguments: the registry interface offers
no way to choose max_retries (and the window intervals 1 s and 60 s and the
fallback retry sleep of 1 s are literals inside wait, not parameters). -/
theorem c10_registry_fixes_retries (m : RateLimitManager) (e : String)
    (o1 o2 : Option Int) (h : lookupLimiter m e = none) :
    (m.get_limiter e o1 o2).1 =
      RateLimiter.construct (pyOrInt o1 10) (pyOrInt o2 600) 3 ∧
    (m.get_limiter e o1 o2).1.max_retries = 3 := by
  unfold RateLimitManager.get_limiter
  rw [h]
  exact ⟨rfl, rfl⟩

/-- C1: the long-window sleep is NOT computed from the long window's own
oldest timestamp: _wait_if_needed always reads second_queue[0].  With the
minute window at its limit (2 events, oldest 30 s old) and a short-window
front 0.5 s old, the code computes a sleep of 119/2 = 59.5 s, not the
30 s = 60 - (now - oldestRemainingLongTimestamp) the claim requires. -/
theorem c1_long_sleep_uses_short_queue :
    wait_if_needed 0 [mkRat (-1) 2] 2 2 60 = .ok (mkRat 119 2) ∧
    (mkRat 119 2 : Rat) ≠ 60 - (0 - (-30)) ∧
    RateLimiter.wait true 0 ⟨10, 2, 3, [mkRat (-1) 2], [-30, -20]⟩ =
      .ok (mkRat 121 2) ⟨10, 2, 3, [mkRat 121 2], [mkRat 121 2]⟩ :=
  ⟨rfl, by decide, by rfl⟩

/-- C2: an IndexError escapes wait(): with the minute window at its limit and
the cleaned second queue empty, _wait_if_needed indexes
second_queue.queue[0] on an empty deque and the resulting IndexError (not a
RateLimitExhausted) propagates out of the call. -/
theorem c2_index_error_escapes :
    RateLimiter.wait true 0 ⟨10, 1, 3, [], [-30]⟩ =
      .err .indexError 0 ⟨10, 1, 3, [], [-30]⟩ := by decide

/-- C3 counterexample: shortLimit = longLimit = 1, a short event 0.5 s old and
a long event 40 s old.  The attempt sleeps 0.5 s for the short window and 59 s
for the long window, so its admission decision is made at clock 119/2; at that
instant BOTH recomputed window counts are 0, strictly below the limits, yet
the attempt does not admit (it re-uses the counts measured before the waits)
and the call exhausts its single retry. -/
theorem c3_counterexample_stale_counts :
    waitAttempt true 0 ⟨1, 1, 1, [mkRat (-1) 2], [-40]⟩ =
      .retry (mkRat 121 2) ⟨1, 1, 1, [mkRat (-1) 2], [-40]⟩ ∧
    RateLimiter.wait true 0 ⟨1, 1, 1, [mkRat (-1) 2], [-40]⟩ =
      .err .exhausted (mkRat 121 2) ⟨1, 1, 1, [mkRat (-1) 2], [-40]⟩ ∧
    ((clean_queue (mkRat 119 2) [mkRat (-1) 2] 1).length : Int) < 1 ∧
    ((clean_queue (mkRat 119 2) [(-40 : Rat)] 60).length : Int) < 1 := by decide

/-- C3 amended: within one admission attempt the decision uses the counts
measured at the attempt's entry clock, before any window-induced sleep: the
attempt admits exactly when both pre-wait counts are strictly below their
limits, in which case no sleep happens at all and the appended timestamp is
the entry time.  Counts are never recomputed after a wait inside the same
attempt (recomputation only happens on the next retry iteration). -/
theorem c3_amended_decision_uses_prewait_counts (advance : Bool) (now : Rat)
    (l : RateLimiter) :
    ((∃ t l1, waitAttempt advance now l = .admitted t l1) ↔
      (((clean_queue now l.second_queue 1).length : Int) < l.calls_per_second ∧
       ((clean_queue now l.minute_queue 60).length : Int) < l.calls_per_minute)) ∧
    (∀ t l1, waitAttempt advance now l = .admitted t l1 →
      t = now ∧
      l1 = { l with second_queue := clean_queue now l.second_queue 1 ++ [now],
                    minute_queue := clean_queue now l.minute_queue 60 ++ [now] }) := by
  constructor
  · constructor
    · rintro ⟨t, l1, h⟩
      obtain ⟨-, h1, h2, -⟩ := waitAttempt_admitted_now h
      exact ⟨h1, h2⟩
    · rintro ⟨h1, h2⟩
      exact ⟨now, _, waitAttempt_fastpath advance now l h1 h2⟩
  · intro t l1 h
    obtain ⟨ht, -, -, hl⟩ := waitAttempt_admitted_now h
    exact ⟨ht, hl⟩

theorem c3_amended_witness :
    (0 : Rat) = 0 ∧
    (⟨1, 600, 3, [(0 : Rat)], [(0 : Rat)]⟩ : RateLimiter) =
      { (⟨1, 600, 3, [], []⟩ : RateLimiter) with
        second_queue := clean_queue 0 [] 1 ++ [0],
        minute_queue := clean_queue 0 [] 60 ++ [0] } :=
  (c3_amended_decision_uses_prewait_counts true 0 ⟨1, 600, 3, [], []⟩).2 0
    ⟨1, 600, 3, [0], [0]⟩ (by decide)

/-- C4 counterexample: construction with calls_per_second = 0 succeeds —
__init__ contains no validation and no raise, so no ConfigurationError is
possible at construction time. -/
theorem c4_counterexample_no_validation :
    RateLimiter.init 0 600 3 = .ok (RateLimiter.construct 0 600 3) := rfl

/-- C4 amended: construction never fails, whatever the limits; a limiter
built with a non-positive limit instead misbehaves later, inside wait(),
where the empty-queue indexing raises an IndexError. -/
theorem c4_amended_construction_never_fails :
    (∀ (cps cpm : Int) (mr : Nat),
      RateLimiter.init cps cpm mr = .ok (RateLimiter.construct cps cpm mr)) ∧
    RateLimiter.wait true 0 (RateLimiter.construct 0 600 3) =
      .err .indexError 0 (RateLimiter.construct 0 600 3) :=
  ⟨fun _ _ _ => rfl, by decide⟩

/-- C5: wait() raises the exhaustion RuntimeError exactly when all
max_retries loop iterations end in the retry branch; in particular with
shortLimit = 1, maxRetries = 1, a frozen clock and zero-length sleeps, the
first call succeeds and the second back-to-back call raises it. -/
theorem c5_exhaustion_after_max_retries :
    (∀ (advance : Bool) (now : Rat) (l : RateLimiter) (t : Rat)
        (l1 : RateLimiter),
      RateLimiter.wait advance now l = .err .exhausted t l1 ↔
      retryIter advance l.max_retries now l = some (t, l1)) ∧
    RateLimiter.wait false 0 ⟨1, 600, 1, [], []⟩ = .ok 0 ⟨1, 600, 1, [0], [0]⟩ ∧
    RateLimiter.wait false 0 ⟨1, 600, 1, [0], [0]⟩ =
      .err .exhausted 0 ⟨1, 600, 1, [0], [0]⟩ :=
  ⟨fun _ _ _ _ _ => waitAux_exhausted_iff, by decide, by decide⟩

/-- C6: a call is recorded in both windows or in neither: on success both
final queues end in the same newly appended timestamp, over remainders of the
initial queues; on any error path (exhaustion or IndexError) the final queues
are sub-sequences of the initial ones -- nothing was appended anywhere. -/
theorem c6_both_windows_or_neither (advance : Bool) (now : Rat)
    (l : RateLimiter) :
    (∀ t l1, RateLimiter.wait advance now l = .ok t l1 →
      ∃ p q, l1.second_queue = p ++ [t] ∧ l1.minute_queue = q ++ [t] ∧
        p.Sublist l.second_queue ∧ q.Sublist l.minute_queue) ∧
    (∀ e t l1, RateLimiter.wait advance now l = .err e t l1 →
      l1.second_queue.Sublist l.second_queue ∧
      l1.minute_queue.Sublist l.minute_queue) := by
  constructor
  · intro t l1 h
    obtain ⟨-, -, -, p, q, hp, hq, hps, hqs, -, -⟩ := waitAux_ok_spec h
    exact ⟨p, q, hp, hq, hps, hqs⟩
  · intro e t l1 h
    exact waitAux_err_spec h

theorem c6_witness :
    ∃ p q, ([(0 : Rat)] : List Rat) = p ++ [(0 : Rat)] ∧
      ([(0 : Rat)] : List Rat) = q ++ [(0 : Rat)] ∧
      p.Sublist ([] : List Rat) ∧ q.Sublist ([] : List Rat) :=
  (c6_both_windows_or_neither false 0 ⟨1, 600, 1, [], []⟩).1 0
    ⟨1, 600, 1, [0], [0]⟩ (by decide)

/-- C7: immediately after a successful wait() the short window holds at most
calls_per_second events and the minute window at most calls_per_minute; and
an event retained by the lazy eviction is never older than the window's
interval relative to the cleaning instant. -/
theorem c7_counts_bounded_after_success (advance : Bool) (now : Rat)
    (l : RateLimiter) :
    (∀ t l1, RateLimiter.wait advance now l = .ok t l1 →
      (l1.second_queue.length : Int) ≤ l.calls_per_second ∧
      (l1.minute_queue.length : Int) ≤ l.calls_per_minute) ∧
    (∀ (current_time interval ts : Rat) (q : List Rat),
      ts ∈ clean_queue current_time q interval → current_time - ts ≤ interval) := by
  constructor
  · intro t l1 h
    obtain ⟨-, -, -, p, q, hp, hq, -, -, hb1, hb2⟩ := waitAux_ok_spec h
    constructor
    · rw [hp]
      simp only [List.length_append, List.length_singleton]
      push_cast
      omega
    · rw [hq]
      simp only [List.length_append, List.length_singleton]
      push_cast
      omega
  · intro current_time interval ts q hm
    simp only [clean_queue, List.mem_filter, decide_eq_true_eq] at hm
    exact hm.2

theorem c7_witness :
    (((⟨1, 600, 1, [(0 : Rat)], [(0 : Rat)]⟩ :
        RateLimiter).second_queue.length : Int) ≤ 1) ∧
    (((⟨1, 600, 1, [(0 : Rat)], [(0 : Rat)]⟩ :
        RateLimiter).minute_queue.length : Int) ≤ 600) :=
  (c7_counts_bounded_after_success false 0 ⟨1, 600, 1, [], []⟩).1 0
    ⟨1, 600, 1, [0], [0]⟩ (by decide)

theorem c8_witness :
    (⟨[("x", RateLimiter.construct 10 600 3)]⟩ : RateLimitManager).limiters =
      ([] : List (String × RateLimiter)) ++
        [("x", RateLimiter.construct 10 600 3)] ∧
    lookupLimiter ⟨[("x", RateLimiter.construct 10 600 3)]⟩ "x" =
      some (RateLimiter.construct 10 600 3) ∧
    RateLimitManager.get_limiter
        ⟨[("x", RateLimiter.construct 10 600 3)]⟩ "x" none none =
      (RateLimiter.construct 10 600 3,
        ⟨[("x", RateLimiter.construct 10 600 3)]⟩) :=
  (c8_registry_singleton_per_key ⟨[]⟩ "x" "y" none none none none).2.1 rfl
    (RateLimiter.construct 10 600 3)
    ⟨[("x", RateLimiter.construct 10 600 3)]⟩ rfl

theorem c9_amended_witness :
    (RateLimitManager.get_limiter ⟨[]⟩ "x" (some 2) none).1.calls_per_second
      = 2 :=
  (c9_amended_override_semantics ⟨[]⟩ "x" (some 2) none rfl).2.2.1 2 rfl
    (by decide)

theorem c10_witness :
    (RateLimitManager.get_limiter ⟨[]⟩ "x" none none).1 =
      RateLimiter.construct (pyOrInt none 10) (pyOrInt none 600) 3 ∧
    (RateLimitManager.get_limiter ⟨[]⟩ "x" none none).1.max_retries = 3 :=
  c10_registry_fixes_retries ⟨[]⟩ "x" none none rfl
